import Mathlib

/-
Verification of the babelfont-fontc-build bridge
(src/babelfont-fontc-build/src/lib.rs).

The crate is a thin wasm-bindgen bridge: `compile_babelfont` runs
serde_json deserialization, `BabelfontIrSource::new_from_memory`, and
`fontc::generate_font` in sequence, converting each failure into a
`JsValue` carrying a formatted diagnostic string.  The three stage
functions live in external crates (serde_json, babelfont, fontc), so the
embedding is parameterized over them: `Font`, `Src` and `Flags` are the
external types `babelfont::Font`, `BabelfontIrSource` and
`fontir::orchestration::Flags`, and each stage is an arbitrary function
of the matching shape.  Errors of the external stages are modelled as
the diagnostic strings their formatting (`{}` resp. `{:?}`) produces.
-/

namespace BabelfontFontcBuild

/-- A host (JavaScript) error value built with `JsValue::from_str`:
it carries exactly one diagnostic string. -/
structure JsValue where
  msg : String
deriving DecidableEq, Repr

/-- The ambient state of the host environment visible to the module:
the process-wide panic-hook flag (the only module global, written once
by `init` via `console_error_panic_hook::set_once`) and the host
filesystem, modelled as a map from paths to file contents. -/
structure HostState where
  panicHookInstalled : Bool
  fileContents : String → Option (List Nat)

/-- `init`: the `#[wasm_bindgen(start)]` hook; installs the panic hook
and touches nothing else. -/
def init (w : HostState) : HostState :=
  { w with panicHookInstalled := true }

/-- `str_pre p s` holds when the string `s` starts with the string `p`. -/
def str_pre (p s : String) : Prop :=
  ∃ t : List Char, s.data = p.data ++ t

/-- Embedding of `compile_babelfont` from
src/babelfont-fontc-build/src/lib.rs, parameterized over the external
crates' entry points:
`from_str` is `serde_json::from_str::<babelfont::Font>`,
`new_from_memory` is `BabelfontIrSource::new_from_memory`,
`generate_font` is `fontc::generate_font` applied to
(source, build_dir, None, flags, false), and
`flagsDefault` is `fontir::orchestration::Flags::default()`.
Each `map_err` + `?` of the source becomes a `match` on `Except`. -/
def compile_babelfont {Font Src Flags : Type}
    (from_str : String → Except String Font)
    (new_from_memory : Font → Except String Src)
    (generate_font : Src → String → Option String → Flags → Bool →
      Except String (List Nat))
    (flagsDefault : Flags)
    (babelfont_json : String) : Except JsValue (List Nat) :=
  match from_str babelfont_json with
  | .error e => .error ⟨"JSON parse error: " ++ e⟩
  | .ok font =>
    match new_from_memory font with
    | .error e => .error ⟨"Failed to create IR source: " ++ e⟩
    | .ok source =>
      match generate_font source "/tmp/fontc_build" none flagsDefault false with
      | .error e => .error ⟨"Compilation failed: " ++ e⟩
      | .ok compiled_font => .ok compiled_font

/-- A host-side call of `compile_babelfont`: the ambient host state is
threaded through the call.  The source function reads no module global
and performs no host I/O (it only calls the three pure stage entry
points), so the state passes through unchanged. -/
def compile_babelfont_call {Font Src Flags : Type}
    (from_str : String → Except String Font)
    (new_from_memory : Font → Except String Src)
    (generate_font : Src → String → Option String → Flags → Bool →
      Except String (List Nat))
    (flagsDefault : Flags)
    (babelfont_json : String) (w : HostState) :
    Except JsValue (List Nat) × HostState :=
  (compile_babelfont from_str new_from_memory generate_font flagsDefault
    babelfont_json, w)

/-- Embedding of `compile_glyphs` from
src/babelfont-fontc-build/src/lib.rs: the legacy entry point, which
ignores its argument and fails with a fixed message. -/
def compile_glyphs (_glyphs_json : String) : Except JsValue (List Nat) :=
  .error ⟨"Please use compile_babelfont() instead."⟩

/-- Embedding of `version` from src/babelfont-fontc-build/src/lib.rs.
`cargo_pkg_version` stands for `env!("CARGO_PKG_VERSION")`, the version
string declared in the crate manifest (the manifest is not under src/). -/
def version (cargo_pkg_version : String) : String :=
  "babelfont-fontc-web v" ++ cargo_pkg_version

/-- Modelled from the spec: the build's declared version number is of the
form `<X.Y.Z>` (the crate manifest carrying the concrete number is not
under src/). -/
def sem_ver (v : String) : Prop :=
  ∃ a b c : Nat, v = toString a ++ "." ++ toString b ++ "." ++ toString c

theorem str_pre_append (p e : String) : str_pre p (p ++ e) :=
  ⟨e.data, String.data_append p e⟩

theorem not_str_pre_head {a b : Char} {ps qs : List Char} {p q : String}
    (e : String) (hp : p.data = a :: ps) (hq : q.data = b :: qs)
    (hab : a ≠ b) : ¬ str_pre q (p ++ e) := by
  rintro ⟨t, ht⟩
  rw [String.data_append, hp, hq] at ht
  simp [List.cons_append] at ht
  exact hab ht.1

/-- C1: `compile_babelfont` runs Decoder, Adapter, Orchestrator in that
order and short-circuits at the first failing stage: a decode failure
yields the decode diagnostic whatever the later stage functions are (so
no later stage runs or influences the result), a decode success followed
by an adapter failure yields the adapter diagnostic whatever the
orchestrator is, and when both earlier stages succeed the result is
exactly the orchestrator's bytes on success or its diagnostic on
failure. -/
theorem compile_babelfont_stage_order {Font Src Flags : Type}
    (from_str : String → Except String Font)
    (new_from_memory : Font → Except String Src)
    (generate_font : Src → String → Option String → Flags → Bool →
      Except String (List Nat))
    (fl : Flags) (text : String) :
    (∀ e, from_str text = .error e →
      ∀ (Src2 : Type) (nfm2 : Font → Except String Src2)
        (gen2 : Src2 → String → Option String → Flags → Bool →
          Except String (List Nat)),
        compile_babelfont from_str nfm2 gen2 fl text =
          .error ⟨"JSON parse error: " ++ e⟩) ∧
    (∀ font e, from_str text = .ok font → new_from_memory font = .error e →
      ∀ gen2 : Src → String → Option String → Flags → Bool →
          Except String (List Nat),
        compile_babelfont from_str new_from_memory gen2 fl text =
          .error ⟨"Failed to create IR source: " ++ e⟩) ∧
    (∀ font src, from_str text = .ok font → new_from_memory font = .ok src →
      (∀ bytes,
        generate_font src "/tmp/fontc_build" none fl false = .ok bytes →
        compile_babelfont from_str new_from_memory generate_font fl text =
          .ok bytes) ∧
      (∀ e,
        generate_font src "/tmp/fontc_build" none fl false = .error e →
        compile_babelfont from_str new_from_memory generate_font fl text =
          .error ⟨"Compilation failed: " ++ e⟩)) := by
  refine ⟨?_, ?_, ?_⟩
  · intro e he Src2 nfm2 gen2
    simp [compile_babelfont, he]
  · intro font e hf hn gen2
    simp [compile_babelfont, hf, hn]
  · intro font src hf hn
    exact ⟨fun bytes hg => by simp [compile_babelfont, hf, hn, hg],
           fun e hg => by simp [compile_babelfont, hf, hn, hg]⟩

theorem compile_babelfont_stage_order_witness :
    @compile_babelfont Unit Unit Unit (fun _ => Except.error "bad")
      (fun _ => Except.ok ())
      (fun (_ : Unit) _ _ (_ : Unit) _ => Except.ok [0]) ()
      "not json" = Except.error ⟨"JSON parse error: bad"⟩ :=
  (compile_babelfont_stage_order (fun _ => Except.error "bad")
      (fun _ => Except.ok ())
      (fun (_ : Unit) _ _ (_ : Unit) _ => Except.ok [0]) ()
      "not json").1 "bad" rfl Unit (fun _ => Except.ok ())
      (fun _ _ _ _ _ => Except.ok [0])

/-- C2: when the decoder rejects the input text (malformed JSON or a
schema mismatch, i.e. `serde_json::from_str` fails), `compile_babelfont`
returns the decode-stage error message and never a byte result:
decoding is all-or-nothing. -/
theorem compile_babelfont_decode_rejects {Font Src Flags : Type}
    (from_str : String → Except String Font)
    (new_from_memory : Font → Except String Src)
    (generate_font : Src → String → Option String → Flags → Bool →
      Except String (List Nat))
    (fl : Flags) (text e : String)
    (h : from_str text = .error e) :
    compile_babelfont from_str new_from_memory generate_font fl text =
      .error ⟨"JSON parse error: " ++ e⟩ ∧
    ∀ bytes,
      compile_babelfont from_str new_from_memory generate_font fl text ≠
        .ok bytes := by
  constructor
  · simp [compile_babelfont, h]
  · intro bytes hc
    simp [compile_babelfont, h] at hc

theorem compile_babelfont_decode_rejects_witness :
    @compile_babelfont Unit Unit Unit (fun _ => Except.error "eof")
      (fun _ => Except.ok ())
      (fun (_ : Unit) _ _ (_ : Unit) _ => Except.ok [1]) ()
      "{}" = Except.error ⟨"JSON parse error: eof"⟩ ∧
    ∀ bytes,
      @compile_babelfont Unit Unit Unit (fun _ => Except.error "eof")
        (fun _ => Except.ok ())
        (fun (_ : Unit) _ _ (_ : Unit) _ => Except.ok [1]) ()
        "{}" ≠ Except.ok bytes :=
  compile_babelfont_decode_rejects (fun _ => Except.error "eof")
    (fun _ => Except.ok ())
    (fun (_ : Unit) _ _ (_ : Unit) _ => Except.ok [1]) () "{}" "eof" rfl

/-- C3: `compile_babelfont` is deterministic: its result does not depend
on the ambient host state, and two consecutive calls on the same text
(the second starting from the state the first left behind) yield
identical results, byte-identical on success. -/
theorem compile_babelfont_deterministic {Font Src Flags : Type}
    (from_str : String → Except String Font)
    (new_from_memory : Font → Except String Src)
    (generate_font : Src → String → Option String → Flags → Bool →
      Except String (List Nat))
    (fl : Flags) (text : String) (w1 w2 : HostState) :
    (compile_babelfont_call from_str new_from_memory generate_font fl
        text w1).1 =
      (compile_babelfont_call from_str new_from_memory generate_font fl
        text w2).1 ∧
    (compile_babelfont_call from_str new_from_memory generate_font fl text
        (compile_babelfont_call from_str new_from_memory generate_font fl
          text w1).2).1 =
      (compile_babelfont_call from_str new_from_memory generate_font fl
        text w1).1 :=
  ⟨rfl, rfl⟩

/-- C4: `compile_glyphs` fails with exactly the fixed message
"Please use compile_babelfont() instead." on every input, and its result
never depends on its argument. -/
theorem compile_glyphs_always_fails :
    ∀ s : String,
      compile_glyphs s =
        Except.error ⟨"Please use compile_babelfont() instead."⟩ ∧
      ∀ t : String, compile_glyphs s = compile_glyphs t :=
  fun _ => ⟨rfl, fun _ => rfl⟩

/-- C5: `version` takes no input besides the build's declared version,
never fails, and returns the fixed non-empty string
"babelfont-fontc-web v<X.Y.Z>" embedding that version number. -/
theorem version_form (v : String) (h : sem_ver v) :
    version v ≠ "" ∧
    str_pre "babelfont-fontc-web v" (version v) ∧
    version v = "babelfont-fontc-web v" ++ v ∧
    (∃ a b c : Nat,
      version v = "babelfont-fontc-web v" ++
        (toString a ++ "." ++ toString b ++ "." ++ toString c)) := by
  refine ⟨?_, ⟨v.data, String.data_append _ _⟩, rfl, ?_⟩
  · intro h0
    have h1 := congrArg String.data h0
    rw [version, String.data_append] at h1
    simp at h1
  · obtain ⟨a, b, c, rfl⟩ := h
    exact ⟨a, b, c, rfl⟩

theorem version_form_witness :
    version "0.1.0" ≠ "" ∧
    str_pre "babelfont-fontc-web v" (version "0.1.0") ∧
    version "0.1.0" = "babelfont-fontc-web v" ++ "0.1.0" ∧
    (∃ a b c : Nat,
      version "0.1.0" = "babelfont-fontc-web v" ++
        (toString a ++ "." ++ toString b ++ "." ++ toString c)) :=
  version_form "0.1.0" ⟨0, 1, 0, rfl⟩

/-- C6: no residual state: a `compile_babelfont` call leaves the host
state exactly as it found it, and the result of a second call depends
only on its own input text — whatever the first call's input and
outcome were, the second call returns the pure function of its own
text. -/
theorem compile_babelfont_no_residual_state {Font Src Flags : Type}
    (from_str : String → Except String Font)
    (new_from_memory : Font → Except String Src)
    (generate_font : Src → String → Option String → Flags → Bool →
      Except String (List Nat))
    (fl : Flags) (text1 text2 : String) (w : HostState) :
    (compile_babelfont_call from_str new_from_memory generate_font fl
        text1 w).2 = w ∧
    (compile_babelfont_call from_str new_from_memory generate_font fl text2
        (compile_babelfont_call from_str new_from_memory generate_font fl
          text1 w).2).1 =
      compile_babelfont from_str new_from_memory generate_font fl text2 :=
  ⟨rfl, rfl⟩

/-- C7: when the compilation pipeline stage fails, `compile_babelfont`
surfaces the pipeline's own diagnostic verbatim after the fixed prefix,
and does not distinguish where inside the pipeline the failure arose:
any orchestrator failing with the same diagnostic yields the identical
returned error. -/
theorem compile_babelfont_pipeline_diag_verbatim {Font Src Flags : Type}
    (from_str : String → Except String Font)
    (new_from_memory : Font → Except String Src)
    (generate_font : Src → String → Option String → Flags → Bool →
      Except String (List Nat))
    (fl : Flags) (text e : String) (font : Font) (src : Src)
    (hf : from_str text = .ok font)
    (hn : new_from_memory font = .ok src)
    (hg : generate_font src "/tmp/fontc_build" none fl false = .error e) :
    compile_babelfont from_str new_from_memory generate_font fl text =
      .error ⟨"Compilation failed: " ++ e⟩ ∧
    ∀ gen2 : Src → String → Option String → Flags → Bool →
        Except String (List Nat),
      gen2 src "/tmp/fontc_build" none fl false = .error e →
      compile_babelfont from_str new_from_memory gen2 fl text =
        compile_babelfont from_str new_from_memory generate_font fl
          text := by
  constructor
  · simp [compile_babelfont, hf, hn, hg]
  · intro gen2 hg2
    simp [compile_babelfont, hf, hn, hg, hg2]

theorem compile_babelfont_pipeline_diag_verbatim_witness :
    @compile_babelfont Unit Unit Unit (fun _ => Except.ok ())
      (fun _ => Except.ok ())
      (fun (_ : Unit) _ _ (_ : Unit) _ => Except.error "glyph oops") ()
      "{}" = Except.error ⟨"Compilation failed: glyph oops"⟩ ∧
    ∀ gen2 : Unit → String → Option String → Unit → Bool →
        Except String (List Nat),
      gen2 () "/tmp/fontc_build" none () false = .error "glyph oops" →
      compile_babelfont (fun _ => Except.ok ()) (fun _ => Except.ok ())
        gen2 () "{}" =
        compile_babelfont (fun _ => Except.ok ()) (fun _ => Except.ok ())
          (fun (_ : Unit) _ _ (_ : Unit) _ => Except.error "glyph oops") ()
          "{}" :=
  compile_babelfont_pipeline_diag_verbatim (fun _ => Except.ok ())
    (fun _ => Except.ok ())
    (fun (_ : Unit) _ _ (_ : Unit) _ => Except.error "glyph oops") ()
    "{}" "glyph oops" () () rfl rfl rfl

/-- C8: the working-directory path is purely nominal: the path handed to
the orchestrator is the literal "/tmp/fontc_build" and only the
orchestrator's behaviour at that path is ever consulted; the call reads
nothing from and writes nothing to the host filesystem (its result is
the same under every filesystem and the filesystem comes back
unchanged); and an in-memory run succeeds with no file on disk at
all. -/
theorem compile_babelfont_path_nominal {Font Src Flags : Type}
    (from_str : String → Except String Font)
    (new_from_memory : Font → Except String Src)
    (generate_font : Src → String → Option String → Flags → Bool →
      Except String (List Nat))
    (fl : Flags) (text : String) (bytes : List Nat) (font : Font)
    (src : Src)
    (hf : from_str text = .ok font)
    (hn : new_from_memory font = .ok src)
    (hg : generate_font src "/tmp/fontc_build" none fl false = .ok bytes) :
    (∀ w w2 : HostState,
      (compile_babelfont_call from_str new_from_memory generate_font fl
          text w).1 =
        (compile_babelfont_call from_str new_from_memory generate_font fl
          text w2).1) ∧
    (∀ w : HostState,
      (compile_babelfont_call from_str new_from_memory generate_font fl
          text w).2.fileContents = w.fileContents) ∧
    (∀ gen2 : Src → String → Option String → Flags → Bool →
        Except String (List Nat),
      (∀ s2 : Src, gen2 s2 "/tmp/fontc_build" none fl false =
        generate_font s2 "/tmp/fontc_build" none fl false) →
      compile_babelfont from_str new_from_memory gen2 fl text =
        compile_babelfont from_str new_from_memory generate_font fl
          text) ∧
    (∀ hook : Bool,
      (compile_babelfont_call from_str new_from_memory generate_font fl
          text ⟨hook, fun _ => none⟩).1 = .ok bytes) := by
  refine ⟨fun w w2 => rfl, fun w => rfl, ?_, ?_⟩
  · intro gen2 hag
    simp [compile_babelfont, hf, hn, hag src]
  · intro hook
    simp [compile_babelfont_call, compile_babelfont, hf, hn, hg]

theorem compile_babelfont_path_nominal_witness :
    (∀ w w2 : HostState,
      (@compile_babelfont_call Unit Unit Unit (fun _ => Except.ok ())
          (fun _ => Except.ok ())
          (fun (_ : Unit) _ _ (_ : Unit) _ => Except.ok [0, 1]) ()
          "{}" w).1 =
        (compile_babelfont_call (fun _ => Except.ok ())
          (fun _ => Except.ok ())
          (fun (_ : Unit) _ _ (_ : Unit) _ => Except.ok [0, 1]) ()
          "{}" w2).1) ∧
    (∀ w : HostState,
      (@compile_babelfont_call Unit Unit Unit (fun _ => Except.ok ())
          (fun _ => Except.ok ())
          (fun (_ : Unit) _ _ (_ : Unit) _ => Except.ok [0, 1]) ()
          "{}" w).2.fileContents = w.fileContents) ∧
    (∀ gen2 : Unit → String → Option String → Unit → Bool →
        Except String (List Nat),
      (∀ s2 : Unit, gen2 s2 "/tmp/fontc_build" none () false =
        Except.ok [0, 1]) →
      compile_babelfont (fun _ => Except.ok ()) (fun _ => Except.ok ())
        gen2 () "{}" =
        compile_babelfont (fun _ => Except.ok ()) (fun _ => Except.ok ())
          (fun (_ : Unit) _ _ (_ : Unit) _ => Except.ok [0, 1]) ()
          "{}") ∧
    (∀ hook : Bool,
      (@compile_babelfont_call Unit Unit Unit (fun _ => Except.ok ())
          (fun _ => Except.ok ())
          (fun (_ : Unit) _ _ (_ : Unit) _ => Except.ok [0, 1]) ()
          "{}" ⟨hook, fun _ => none⟩).1 = .ok [0, 1]) :=
  compile_babelfont_path_nominal (fun _ => Except.ok ())
    (fun _ => Except.ok ())
    (fun (_ : Unit) _ _ (_ : Unit) _ => Except.ok [0, 1]) ()
    "{}" [0, 1] () () rfl rfl rfl

/-- C9: every call invokes the pipeline with the default configuration:
the orchestrator is only ever consulted at `Flags::default()` together
with the fixed remaining arguments, so two orchestrators agreeing there
are indistinguishable through `compile_babelfont`, whose only
caller-supplied input is the text. -/
theorem compile_babelfont_default_config {Font Src Flags : Type}
    (from_str : String → Except String Font)
    (new_from_memory : Font → Except String Src)
    (generate_font gen2 : Src → String → Option String → Flags → Bool →
      Except String (List Nat))
    (fl : Flags) (text : String)
    (hagree : ∀ src : Src,
      generate_font src "/tmp/fontc_build" none fl false =
        gen2 src "/tmp/fontc_build" none fl false) :
    compile_babelfont from_str new_from_memory generate_font fl text =
      compile_babelfont from_str new_from_memory gen2 fl text := by
  cases hfs : from_str text with
  | error e => simp [compile_babelfont, hfs]
  | ok font =>
    cases hn : new_from_memory font with
    | error e => simp [compile_babelfont, hfs, hn]
    | ok src => simp [compile_babelfont, hfs, hn, hagree src]

theorem compile_babelfont_default_config_witness :
    @compile_babelfont Unit Unit Bool (fun _ => Except.ok ())
      (fun _ => Except.ok ())
      (fun (_ : Unit) _ _ (fl2 : Bool) _ =>
        if fl2 then Except.ok [9] else Except.ok [1])
      false "{}" =
    compile_babelfont (fun _ => Except.ok ()) (fun _ => Except.ok ())
      (fun (_ : Unit) _ _ (_ : Bool) _ => Except.ok [1]) false "{}" :=
  compile_babelfont_default_config (fun _ => Except.ok ())
    (fun _ => Except.ok ())
    (fun (_ : Unit) _ _ (fl2 : Bool) _ =>
      if fl2 then Except.ok [9] else Except.ok [1])
    (fun (_ : Unit) _ _ (_ : Bool) _ => Except.ok [1]) false "{}"
    (fun _ => rfl)

/-- C10: every error `compile_babelfont` returns begins with exactly one
of the three fixed stage prefixes — "JSON parse error: " (decode),
"Failed to create IR source: " (adaptation), "Compilation failed: "
(compilation) — so the failing stage is always recoverable from the
message text. -/
theorem compile_babelfont_error_stage_tag {Font Src Flags : Type}
    (from_str : String → Except String Font)
    (new_from_memory : Font → Except String Src)
    (generate_font : Src → String → Option String → Flags → Bool →
      Except String (List Nat))
    (fl : Flags) (text : String) (m : JsValue)
    (h : compile_babelfont from_str new_from_memory generate_font fl
      text = .error m) :
    (str_pre "JSON parse error: " m.msg ∧
     ¬ str_pre "Failed to create IR source: " m.msg ∧
     ¬ str_pre "Compilation failed: " m.msg) ∨
    (¬ str_pre "JSON parse error: " m.msg ∧
     str_pre "Failed to create IR source: " m.msg ∧
     ¬ str_pre "Compilation failed: " m.msg) ∨
    (¬ str_pre "JSON parse error: " m.msg ∧
     ¬ str_pre "Failed to create IR source: " m.msg ∧
     str_pre "Compilation failed: " m.msg) := by
  obtain ⟨s⟩ := m
  cases hfs : from_str text with
  | error e =>
    simp [compile_babelfont, hfs] at h
    subst h
    exact Or.inl ⟨str_pre_append _ _,
      not_str_pre_head e rfl rfl (by decide),
      not_str_pre_head e rfl rfl (by decide)⟩
  | ok font =>
    cases hn : new_from_memory font with
    | error e =>
      simp [compile_babelfont, hfs, hn] at h
      subst h
      exact Or.inr (Or.inl ⟨not_str_pre_head e rfl rfl (by decide),
        str_pre_append _ _,
        not_str_pre_head e rfl rfl (by decide)⟩)
    | ok src =>
      cases hg : generate_font src "/tmp/fontc_build" none fl false with
      | error e =>
        simp [compile_babelfont, hfs, hn, hg] at h
        subst h
        exact Or.inr (Or.inr ⟨not_str_pre_head e rfl rfl (by decide),
          not_str_pre_head e rfl rfl (by decide),
          str_pre_append _ _⟩)
      | ok bytes =>
        simp [compile_babelfont, hfs, hn, hg] at h

theorem compile_babelfont_error_stage_tag_witness :
    (str_pre "JSON parse error: "
       (JsValue.mk "JSON parse error: x").msg ∧
     ¬ str_pre "Failed to create IR source: "
       (JsValue.mk "JSON parse error: x").msg ∧
     ¬ str_pre "Compilation failed: "
       (JsValue.mk "JSON parse error: x").msg) ∨
    (¬ str_pre "JSON parse error: "
       (JsValue.mk "JSON parse error: x").msg ∧
     str_pre "Failed to create IR source: "
       (JsValue.mk "JSON parse error: x").msg ∧
     ¬ str_pre "Compilation failed: "
       (JsValue.mk "JSON parse error: x").msg) ∨
    (¬ str_pre "JSON parse error: "
       (JsValue.mk "JSON parse error: x").msg ∧
     ¬ str_pre "Failed to create IR source: "
       (JsValue.mk "JSON parse error: x").msg ∧
     str_pre "Compilation failed: "
       (JsValue.mk "JSON parse error: x").msg) :=
  @compile_babelfont_error_stage_tag Unit Unit Unit
    (fun _ => Except.error "x") (fun _ => Except.ok ())
    (fun _ _ _ _ _ => Except.ok []) () "t" ⟨"JSON parse error: x"⟩ rfl

end BabelfontFontcBuild
